import Mathlib

/-!
Verification development for the ubisys device converters
(`src/devices/ubisys.ts`): a shallow embedding of the two algorithmic
components — the J1 window-covering calibration orchestrator
(`tz.configure_j1.convertSet`) and the input-action template compiler
(`tz.configure_device_setup.convertSet`) — together with theorems settling
the specification claims.

Modelling conventions:
* JSON numbers are modelled as `ℚ` (exact rational arithmetic; the
  convenience conversions `s * stepsPerSecond` and
  `ms * stepsPerSecond / 1000` are stated at this level of description,
  matching the spec's formulas).
* The attribute transport is modelled as an event trace: the orchestrator
  is a pure function from its inputs (payload, initially read
  `windowCoveringMode`, and a poll oracle giving the number of non-zero
  `operationalStatus` reads for each `waitUntilStopped` call) to the list
  of transport events it performs, in order.  `sleepSeconds` performs no
  transport interaction and produces no event.
* JS bitwise operators coerce to 32-bit integers; `mode & ~0x02` is
  modelled as `m &&& 0xFFFFFFFD` on `ℕ`, which agrees with JS for the
  attribute's value range.
-/

namespace Ubisys

/-- One transport interaction of the calibration orchestrator, in order:
an attribute write to `closuresWindowCovering` (the written key/value
pairs), a cluster command, a single `operationalStatus` poll read, or the
final `convertGet` read-back. -/
inductive Event where
  | write (attrs : List (String × ℚ))
  | command (c : String)
  | pollRead
  | readback
deriving DecidableEq, Repr

/-- The JSON payload of a `configure_j1` set request.  `attrs` holds the
numeric members (`value[k]`); `calibrate` and `steps_per_second` are the
two specially-read members (`none` models an absent — or `null` — key,
matching the source's `value.calibrate != null` test). -/
structure Payload where
  attrs : List (String × ℚ) := []
  calibrate : Option Bool := none
  steps_per_second : Option ℚ := none
deriving DecidableEq, Repr

/-- `value[k]` on the numeric members of the payload. -/
def lookupA (l : List (String × ℚ)) (k : String) : Option ℚ :=
  (l.find? (fun p => p.1 == k)).map (fun p => p.2)

/-- `const stepsPerSecond = value.steps_per_second || 50;` (line 156).
JS `||` replaces the falsy value `0` by the default as well. -/
def stepsPerSecondOf (value : Payload) : ℚ :=
  match value.steps_per_second with
  | some s => if s = 0 then 50 else s
  | none => 50

/-- The string V8 produces for `String(String.prototype.toLowerCase)`.
Line 141 reads `jsonAttr.substring(6, 1).toLowerCase + jsonAttr.substring(7)`:
`.toLowerCase` is not called (no parentheses), so the function object itself
is stringified into the key. -/
def jsToLowerCaseFunSrc : String := "function toLowerCase() \x7b [native code] \x7d"

/-- The JSON key actually looked up by `writeAttrFromJson` (lines 138-142).
For a key starting with `"ubisys"` the source computes
`jsonAttr.substring(6, 1).toLowerCase + jsonAttr.substring(7)`:
`substring(6, 1)` swaps its arguments (`= substring(1, 6) = "bisys"`), that
receiver is discarded, the uncalled `toLowerCase` function is coerced to a
string, and the tail `substring(7)` is appended. -/
def effectiveJsonKey (jsonAttr : String) : String :=
  if jsonAttr.data.take 6 = "ubisys".data then
    jsToLowerCaseFunSrc ++ String.mk (jsonAttr.data.drop 7)
  else jsonAttr

/-- `writeAttrFromJson(attr, jsonAttr?, converterFunc?, delaySecondsAfter?)`
(lines 131-155): if the (transformed) JSON key is present in the payload,
apply the converter and write the single attribute.  The trailing delay
performs no transport interaction.  The JS function has no `return`
statement, so its awaited result is always `undefined` (see
`writeAttrFromJsonResult`). -/
def writeAttrFromJson (value : Payload) (attr jsonAttr : String)
    (conv : Option (ℚ → ℚ)) : List Event :=
  match lookupA value.attrs (effectiveJsonKey jsonAttr) with
  | some v => [Event.write [(attr, (conv.getD id) v)]]
  | none => []

/-- The value of the `await writeAttrFromJson(...)` expression used as the
`if` condition on line 170: the function has no `return` statement, so the
condition is `undefined`, i.e. always falsy.  Consequently
`mode = value.windowCoveringMode` on line 171 never executes. -/
def writeAttrFromJsonResult : Bool := false

/-- `mode & ~modeCalibrationBitMask` (lines 163, 245): JS `~0x02` over
Int32 is `-3`; for the attribute's value range this equals masking with
`0xFFFFFFFD`. -/
def clearCalBit (m : ℕ) : ℕ := m &&& 4294967293

/-- `mode | modeCalibrationBitMask` (line 197). -/
def setCalBit (m : ℕ) : ℕ := m ||| 2

/-- The multi-attribute reset write of lines 181-194. -/
def resetAttributes : List (String × ℚ) :=
  [("installedOpenLimitLiftCm", 0), ("installedClosedLimitLiftCm", 240),
   ("installedOpenLimitTiltDdegree", 0), ("installedClosedLimitTiltDdegree", 900),
   ("ubisysLiftToTiltTransitionSteps", 65535), ("ubisysTotalSteps", 65535),
   ("ubisysLiftToTiltTransitionSteps2", 65535), ("ubisysTotalSteps2", 65535)]

/-- `waitUntilStopped` (lines 121-130): a do-while loop polling
`operationalStatus` until it reads 0; `k` is the number of reads that
returned a non-zero status before the final zero read. -/
def waitUntilStopped (k : ℕ) : List Event := List.replicate (k + 1) Event.pollRead

/-- Lines 160-165 (Settle): if the initially read mode has the
calibration bit set, write it back cleared (the `mode` *variable* is not
updated by this write). -/
def settleEvents (initialMode : ℕ) : List Event :=
  if initialMode &&& 2 ≠ 0 then
    [Event.write [("windowCoveringMode", ((clearCalBit initialMode : ℕ) : ℚ))]]
  else []

/-- Lines 167-170 (BaseConfig): the three basic configuration attribute
writes, each taken from the payload when present. -/
def baseConfigEvents (value : Payload) : List Event :=
  writeAttrFromJson value "windowCoveringType" "windowCoveringType" none
  ++ writeAttrFromJson value "configStatus" "configStatus" none
  ++ writeAttrFromJson value "windowCoveringMode" "windowCoveringMode" none

/-- Lines 173-214 (the `hasCalibrate` learning sequence): prime to top,
reset limit attributes, enable calibration mode (`mode | 0x02` with `mode`
the initially read value — see `writeAttrFromJsonResult`), then the three
learning movements. -/
def learnEvents (mode : ℕ) (stopDelays : ℕ → ℕ) : List Event :=
  [Event.command "upOpen"] ++ waitUntilStopped (stopDelays 0)
  ++ [Event.write resetAttributes]
  ++ [Event.write [("windowCoveringMode", ((setCalBit mode : ℕ) : ℚ))]]
  ++ [Event.command "downClose", Event.command "stop", Event.command "upOpen"]
  ++ waitUntilStopped (stopDelays 1)
  ++ [Event.command "downClose"] ++ waitUntilStopped (stopDelays 2)
  ++ [Event.command "upOpen"] ++ waitUntilStopped (stopDelays 3)

/-- Lines 216-227 (ApplyOverrides): the twelve raw attribute overrides, in
source order. -/
def overrideEvents (value : Payload) : List Event :=
  writeAttrFromJson value "installedOpenLimitLiftCm" "installedOpenLimitLiftCm" none
  ++ writeAttrFromJson value "installedClosedLimitLiftCm" "installedClosedLimitLiftCm" none
  ++ writeAttrFromJson value "installedOpenLimitTiltDdegree" "installedOpenLimitTiltDdegree" none
  ++ writeAttrFromJson value "installedClosedLimitTiltDdegree" "installedClosedLimitTiltDdegree" none
  ++ writeAttrFromJson value "ubisysTurnaroundGuardTime" "ubisysTurnaroundGuardTime" none
  ++ writeAttrFromJson value "ubisysLiftToTiltTransitionSteps" "ubisysLiftToTiltTransitionSteps" none
  ++ writeAttrFromJson value "ubisysTotalSteps" "ubisysTotalSteps" none
  ++ writeAttrFromJson value "ubisysLiftToTiltTransitionSteps2" "ubisysLiftToTiltTransitionSteps2" none
  ++ writeAttrFromJson value "ubisysTotalSteps2" "ubisysTotalSteps2" none
  ++ writeAttrFromJson value "ubisysAdditionalSteps" "ubisysAdditionalSteps" none
  ++ writeAttrFromJson value "ubisysInactivePowerThreshold" "ubisysInactivePowerThreshold" none
  ++ writeAttrFromJson value "ubisysStartupSteps" "ubisysStartupSteps" none

/-- Lines 228-240: the convenience unit conversions, applied after the raw
overrides. -/
def convenienceEvents (value : Payload) : List Event :=
  writeAttrFromJson value "ubisysTotalSteps" "open_to_closed_s"
    (some (fun s => s * stepsPerSecondOf value))
  ++ writeAttrFromJson value "ubisysTotalSteps2" "closed_to_open_s"
    (some (fun s => s * stepsPerSecondOf value))
  ++ writeAttrFromJson value "ubisysLiftToTiltTransitionSteps" "lift_to_tilt_transition_ms"
    (some (fun s => s * stepsPerSecondOf value / 1000))
  ++ writeAttrFromJson value "ubisysLiftToTiltTransitionSteps2" "lift_to_tilt_transition_ms"
    (some (fun s => s * stepsPerSecondOf value / 1000))

/-- Lines 241-250 (Finalize): write back `mode & ~0x02` and read back the
results (`convertGet`). -/
def finalizeEvents (mode : ℕ) : List Event :=
  [Event.write [("windowCoveringMode", ((clearCalBit mode : ℕ) : ℚ))], Event.readback]

/-- The transport-event trace of `tz.configure_j1.convertSet`
(lines 114-251).  `initialMode` is the `windowCoveringMode` returned by the
initial read (line 160); `stopDelays n` is the poll oracle for the n-th
`waitUntilStopped` call.  `mode` keeps `initialMode` throughout: the
line 162-165 settle write does not update the variable, and the line 170
adoption guard `if (await writeAttrFromJson("windowCoveringMode", ...))` is
always falsy (`writeAttrFromJsonResult`), so the line 171 assignment
`mode = value.windowCoveringMode` is dead code. -/
def runCalibration (value : Payload) (initialMode : ℕ) (stopDelays : ℕ → ℕ) : List Event :=
  settleEvents initialMode
  ++ baseConfigEvents value
  ++ (if value.calibrate.isSome then learnEvents initialMode stopDelays else [])
  ++ overrideEvents value
  ++ convenienceEvents value
  ++ (if value.calibrate.isSome then finalizeEvents initialMode else [])

/-! ### Action template compiler (`tz.configure_device_setup.convertSet`, lines 416-609) -/

/-- One cell of an emitted instruction tuple.  JS endpoint arithmetic can
produce `undefined`/`NaN` (an unknown device model yields an `undefined`
starting endpoint, and `undefined + n` is `NaN`); `none` models such a
non-numeric cell, `some z` a concrete integer. -/
abbrev Cell := Option ℤ

/-- An emitted instruction tuple (`InstructionTuple`): the raw row appended
to `resultingInputActions`. -/
abbrev ActionRow := List Cell

/-- One authored `InputActionTemplate`.  `inputs` is the documented input
pair; group and scene ids are the (non-negative) JSON ids, on which the JS
bitwise operations agree with `ℕ` operations. -/
structure Template where
  type : String
  input : Option ℤ := none
  inputs : Option (ℤ × ℤ) := none
  endpoint : Option ℤ := none
  rate : Option ℤ := none
  no_onoff : Bool := false
  no_onoff_up : Bool := false
  no_onoff_down : Bool := false
  group_id : Option ℕ := none
  group_id_2 : Option ℕ := none
  scene_id : Option ℕ := none
  scene_id_2 : Option ℕ := none
deriving DecidableEq, Repr

/-- A template family of the `templateTypes` registry: the capability
flags plus the expansion functions.  In the source a single JS field
`getInputActions` takes `(input, endpoint, template)` for plain families,
`(inputs, endpoint, template)` for double-input families, and
`(input, endpoint, groupId, sceneId)` for scene families (which also have
`getInputActions2` for the secondary scene binding); the four shapes are
separate fields here. -/
structure TemplateFamily where
  doubleInputs : Bool := false
  cover : Bool := false
  scene : Bool := false
  getInputActions : ℤ → Cell → Template → List ActionRow := fun _ _ _ => []
  getInputActionsDouble : ℤ × ℤ → Cell → Template → List ActionRow := fun _ _ _ => []
  getInputActionsScene : ℤ → Cell → ℕ → ℕ → List ActionRow := fun _ _ _ _ => []
  getInputActionsScene2 : ℤ → Cell → ℕ → ℕ → List ActionRow := fun _ _ _ _ => []

/-- `template.rate || 50` (lines 445, 459). -/
def rateOf (t : Template) : ℤ :=
  match t.rate with
  | some r => if r = 0 then 50 else r
  | none => 50

/-- `template.no_onoff || template.no_onoff_up ? 0x01 : 0x05`. -/
def moveUpCmdOf (t : Template) : ℤ := if t.no_onoff || t.no_onoff_up then 1 else 5

/-- `template.no_onoff || template.no_onoff_down ? 0x01 : 0x05`. -/
def moveDownCmdOf (t : Template) : ℤ := if t.no_onoff || t.no_onoff_down then 1 else 5

/-- A scene-recall row: `[input, mask, endpoint, 0x05, 0x00, 0x05,
groupId & 0xff, groupId >> 8, sceneId]` (lines 500-514). -/
def sceneRow (mask : ℤ) (i : ℤ) (ep : Cell) (groupId sceneId : ℕ) : ActionRow :=
  [some i, some mask, ep, some 5, some 0, some 5,
   some ((groupId &&& 255 : ℕ) : ℤ), some ((groupId >>> 8 : ℕ) : ℤ), some (sceneId : ℤ)]

/-- The `templateTypes` registry (lines 417-516), keyed by `template.type`;
`none` for an unknown type. -/
def templateTypes (ty : String) : Option TemplateFamily :=
  if ty = "toggle" then
    some { getInputActions := fun i ep _ => [[some i, some 13, ep, some 6, some 0, some 2]] }
  else if ty = "toggle_switch" then
    some { getInputActions := fun i ep _ =>
      [[some i, some 13, ep, some 6, some 0, some 2],
       [some i, some 3, ep, some 6, some 0, some 2]] }
  else if ty = "on_off_switch" then
    some { getInputActions := fun i ep _ =>
      [[some i, some 13, ep, some 6, some 0, some 1],
       [some i, some 3, ep, some 6, some 0, some 0]] }
  else if ty = "on" then
    some { getInputActions := fun i ep _ => [[some i, some 13, ep, some 6, some 0, some 1]] }
  else if ty = "off" then
    some { getInputActions := fun i ep _ => [[some i, some 13, ep, some 6, some 0, some 0]] }
  else if ty = "dimmer_single" then
    some { getInputActions := fun i ep t =>
      [[some i, some 7, ep, some 6, some 0, some 2],
       [some i, some 134, ep, some 8, some 0, some (moveUpCmdOf t), some 0, some (rateOf t)],
       [some i, some 198, ep, some 8, some 0, some (moveDownCmdOf t), some 1, some (rateOf t)],
       [some i, some 11, ep, some 8, some 0, some 3]] }
  else if ty = "dimmer_double" then
    some { doubleInputs := true
           getInputActionsDouble := fun p ep t =>
      [[some p.1, some 7, ep, some 6, some 0, some 1],
       [some p.1, some 6, ep, some 8, some 0, some (moveUpCmdOf t), some 0, some (rateOf t)],
       [some p.1, some 11, ep, some 8, some 0, some 3],
       [some p.2, some 7, ep, some 6, some 0, some 0],
       [some p.2, some 6, ep, some 8, some 0, some (moveDownCmdOf t), some 1, some (rateOf t)],
       [some p.2, some 11, ep, some 8, some 0, some 3]] }
  else if ty = "cover" then
    some { cover := true, doubleInputs := true
           getInputActionsDouble := fun p ep _ =>
      [[some p.1, some 13, ep, some 2, some 1, some 0],
       [some p.1, some 7, ep, some 2, some 1, some 2],
       [some p.2, some 13, ep, some 2, some 1, some 1],
       [some p.2, some 7, ep, some 2, some 1, some 2]] }
  else if ty = "cover_switch" then
    some { cover := true, doubleInputs := true
           getInputActionsDouble := fun p ep _ =>
      [[some p.1, some 13, ep, some 2, some 1, some 0],
       [some p.1, some 3, ep, some 2, some 1, some 2],
       [some p.2, some 13, ep, some 2, some 1, some 1],
       [some p.2, some 3, ep, some 2, some 1, some 2]] }
  else if ty = "cover_up" then
    some { cover := true
           getInputActions := fun i ep _ => [[some i, some 13, ep, some 2, some 1, some 0]] }
  else if ty = "cover_down" then
    some { cover := true
           getInputActions := fun i ep _ => [[some i, some 13, ep, some 2, some 1, some 1]] }
  else if ty = "scene" then
    some { scene := true
           getInputActionsScene := fun i ep g s => [sceneRow 7 i ep g s]
           getInputActionsScene2 := fun i ep g s => [sceneRow 6 i ep g s] }
  else if ty = "scene_switch" then
    some { scene := true
           getInputActionsScene := fun i ep g s => [sceneRow 13 i ep g s]
           getInputActionsScene2 := fun i ep g s => [sceneRow 3 i ep g s] }
  else none

/-- JS `endpoint < 5` where `endpoint` may be `undefined`/`NaN`: any
comparison against a non-number is false. -/
def jlt (e : Cell) (k : ℤ) : Bool :=
  match e with
  | some v => v < k
  | none => false

/-- JS `endpoint + k` where `endpoint` may be `undefined`/`NaN`: the result
is then `NaN` again. -/
def jadd (e : Cell) (k : ℤ) : Cell := e.map (fun v => v + k)

/-- `{S1: 2, S2: 3, D1: 2, J1: 2, C4: 1}[meta.mapped.model]` (line 522):
a JS object lookup, `undefined` for an unrecognized model. -/
def modelStartingEndpoint (model : String) : Cell :=
  if model = "S1" then some 2
  else if model = "S2" then some 3
  else if model = "D1" then some 2
  else if model = "J1" then some 2
  else if model = "C4" then some 1
  else none

/-- The compiler's fatal configuration errors. -/
inductive CompileError where
  | invalidTemplateType (ty : String)
  | missingSceneId (ty : String)
deriving DecidableEq, Repr

/-- The compiler's running cursor (`input`, `endpoint`, `groupId` of
lines 519-524), threaded through the template loop. -/
structure CState where
  input : ℤ
  endpoint : Cell
  groupId : ℕ
deriving DecidableEq, Repr

/-- The input index/pair a template's expansion actually used (logged by
line 579 as `Using input(s) ... and endpoint ...`). -/
inductive InputUse where
  | single (i : ℤ)
  | pair (a b : ℤ)
deriving DecidableEq, Repr

/-- `Math.max(...input) : input` of line 581: the largest input index used. -/
def inputUseMax : InputUse → ℤ
  | .single i => i
  | .pair a b => max a b

/-- Result of processing one template: the emitted rows, the resolved
input(s) and endpoint that were used, and the advanced cursor. -/
structure StepOut where
  acts : List ActionRow
  usedInput : InputUse
  usedEndpoint : Cell
  next : CState
deriving DecidableEq, Repr

/-- Lines 541-543: an explicit `template.endpoint` overrides the cursor. -/
def resolveEndpoint (st : CState) (t : Template) : Cell :=
  match t.endpoint with
  | some e => some e
  | none => st.endpoint

/-- Lines 544-547: on the C4, cover endpoints start at 5, so a resolved
endpoint below 5 of a cover-capable family is shifted up by 4. -/
def c4CoverFixup (model : String) (isCover : Bool) (ep : Cell) : Cell :=
  if isCover && model == "C4" && jlt ep 5 then jadd ep 4 else ep

/-- Processing of a single template inside the `for` loop of
lines 528-583: family lookup, input/endpoint overrides, C4 cover fixup,
expansion (single / scene / double-input), and the unconditional cursor
advance of lines 581-582. -/
def step (model : String) (st : CState) (t : Template) : Except CompileError StepOut :=
  match templateTypes t.type with
  | none => .error (.invalidTemplateType t.type)
  | some fam =>
    let input := t.input.getD st.input
    let endpoint := c4CoverFixup model fam.cover (resolveEndpoint st t)
    if !fam.doubleInputs then
      if !fam.scene then
        let acts := fam.getInputActions input endpoint t
        .ok ⟨acts, .single input, endpoint, ⟨input + 1, jadd endpoint 1, st.groupId⟩⟩
      else
        match t.scene_id with
        | none => .error (.missingSceneId t.type)
        | some sceneId =>
          let g1 := t.group_id.getD st.groupId
          let acts1 := fam.getInputActionsScene input endpoint g1 sceneId
          match t.scene_id_2 with
          | none => .ok ⟨acts1, .single input, endpoint, ⟨input + 1, jadd endpoint 1, g1⟩⟩
          | some sceneId2 =>
            let g2 := t.group_id_2.getD g1
            let acts := acts1 ++ fam.getInputActionsScene2 input endpoint g2 sceneId2
            .ok ⟨acts, .single input, endpoint, ⟨input + 1, jadd endpoint 1, g2⟩⟩
    else
      let pair := t.inputs.getD (input, input + 1)
      let acts := fam.getInputActionsDouble pair endpoint t
      .ok ⟨acts, .pair pair.1 pair.2, endpoint, ⟨max pair.1 pair.2 + 1, jadd endpoint 1, st.groupId⟩⟩

/-- The template loop: processes the list in order, concatenating the
emitted rows (`resultingInputActions`), returning the final cursor. -/
def runTemplates (model : String) (st : CState) :
    List Template → Except CompileError (CState × List ActionRow)
  | [] => .ok (st, [])
  | t :: ts =>
    match step model st t with
    | .error e => .error e
    | .ok out =>
      match runTemplates model out.next ts with
      | .error e => .error e
      | .ok (st', acc) => .ok (st', out.acts ++ acc)

/-- `compile(templates, model)`: cursor initialized to input 0,
`modelStartingEndpoint`, group id 0 (lines 518-524); returns the
concatenated instruction rows that the converter would then write. -/
def compile (templates : List Template) (model : String) :
    Except CompileError (List ActionRow) :=
  (runTemplates model ⟨0, modelStartingEndpoint model, 0⟩ templates).map (fun r => r.2)

/-- The family's `cover` capability flag, `false` for unknown types. -/
def famCover (ty : String) : Bool :=
  match templateTypes ty with
  | some fam => fam.cover
  | none => false

/-- The family's `scene` capability flag, `false` for unknown types. -/
def famScene (ty : String) : Bool :=
  match templateTypes ty with
  | some fam => fam.scene
  | none => false

/-- A template whose processing can change the compiler's `groupId`
register: a scene-family template supplying `group_id`, or supplying both
`scene_id_2` and `group_id_2`. -/
def touchesGroup (t : Template) : Bool :=
  famScene t.type && (t.group_id.isSome || (t.scene_id_2.isSome && t.group_id_2.isSome))

/-! ### Trace observations -/

/-- The commands of a calibration trace. -/
def commandsOf (es : List Event) : List String :=
  es.filterMap (fun e => match e with | .command c => some c | _ => none)

/-- The number of `operationalStatus` poll reads in a trace. -/
def pollCount (es : List Event) : ℕ :=
  (es.filter (fun e => match e with | .pollRead => true | _ => false)).length

/-- The values written to `windowCoveringMode`, in trace order. -/
def wcModeWrites (es : List Event) : List ℚ :=
  es.filterMap (fun e => match e with
    | .write l => lookupA l "windowCoveringMode"
    | _ => none)

/-- One fold step of `lastWriteOf`: a write containing attribute `a`
replaces the accumulator. -/
def lastWriteStep (a : String) (acc : Option ℚ) (e : Event) : Option ℚ :=
  match e with
  | .write l =>
    match lookupA l a with
    | some v => some v
    | none => acc
  | _ => acc

/-- The last value written to attribute `a` in the trace, if any. -/
def lastWriteOf (a : String) (es : List Event) : Option ℚ :=
  es.foldl (lastWriteStep a) none

/-- A rational that is a natural number with the calibration bit (0x02)
clear. -/
def calBitClearQ (q : ℚ) : Prop := ∃ n : ℕ, q = (n : ℚ) ∧ n &&& 2 = 0

/-- A rational that is a natural number with the calibration bit (0x02)
set. -/
def calBitSetQ (q : ℚ) : Prop := ∃ n : ℕ, q = (n : ℚ) ∧ n &&& 2 ≠ 0

/-- The claimed mode-bit discipline over the `windowCoveringMode` write
values of a trace: the write list is non-empty, its last value has the
calibration bit clear, and any value with the bit set occurs only at the
enable-calibration position, i.e. immediately before the final (finalize)
write. -/
def calModeWindowPropList (ws : List ℚ) : Prop :=
  ws ≠ [] ∧ (∀ v, ws.getLast? = some v → calBitClearQ v) ∧
  ∀ i v, ws[i]? = some v → calBitSetQ v → i + 2 = ws.length

/-- `calModeWindowPropList` over a trace's `windowCoveringMode` writes. -/
def calModeWindowProp (es : List Event) : Prop :=
  calModeWindowPropList (wcModeWrites es)

/-! ### Trace lemmas -/

lemma commandsOf_append (a b : List Event) :
    commandsOf (a ++ b) = commandsOf a ++ commandsOf b := by
  simp [commandsOf]

lemma commandsOf_waf (value : Payload) (a j : String) (c : Option (ℚ → ℚ)) :
    commandsOf (writeAttrFromJson value a j c) = [] := by
  unfold writeAttrFromJson commandsOf
  cases lookupA value.attrs (effectiveJsonKey j) <;> simp

lemma pollCount_append (a b : List Event) :
    pollCount (a ++ b) = pollCount a + pollCount b := by
  simp [pollCount]

lemma pollCount_waf (value : Payload) (a j : String) (c : Option (ℚ → ℚ)) :
    pollCount (writeAttrFromJson value a j c) = 0 := by
  unfold writeAttrFromJson pollCount
  cases lookupA value.attrs (effectiveJsonKey j) <;> simp

lemma wcModeWrites_append (a b : List Event) :
    wcModeWrites (a ++ b) = wcModeWrites a ++ wcModeWrites b := by
  simp [wcModeWrites]

/-- A `writeAttrFromJson` call for an attribute other than
`windowCoveringMode` contributes no `windowCoveringMode` write. -/
lemma wcModeWrites_waf_ne (value : Payload) (a j : String) (c : Option (ℚ → ℚ))
    (h : a ≠ "windowCoveringMode") :
    wcModeWrites (writeAttrFromJson value a j c) = [] := by
  unfold writeAttrFromJson wcModeWrites
  cases lookupA value.attrs (effectiveJsonKey j) with
  | none => simp
  | some v =>
    simp [lookupA, List.find?, beq_eq_false_iff_ne.mpr h]

lemma commandsOf_nil : commandsOf [] = [] := rfl

lemma pollCount_nil : pollCount [] = 0 := rfl

lemma wcModeWrites_nil : wcModeWrites [] = [] := rfl

lemma commandsOf_settle (m : ℕ) : commandsOf (settleEvents m) = [] := by
  unfold settleEvents; split <;> simp [commandsOf]

lemma commandsOf_base (value : Payload) : commandsOf (baseConfigEvents value) = [] := by
  simp only [baseConfigEvents, commandsOf_append, commandsOf_waf, List.append_nil]

lemma commandsOf_over (value : Payload) : commandsOf (overrideEvents value) = [] := by
  simp only [overrideEvents, commandsOf_append, commandsOf_waf, List.append_nil]

lemma commandsOf_conv (value : Payload) : commandsOf (convenienceEvents value) = [] := by
  simp only [convenienceEvents, commandsOf_append, commandsOf_waf, List.append_nil]

lemma pollCount_settle (m : ℕ) : pollCount (settleEvents m) = 0 := by
  unfold settleEvents; split <;> simp [pollCount]

lemma pollCount_base (value : Payload) : pollCount (baseConfigEvents value) = 0 := by
  simp only [baseConfigEvents, pollCount_append, pollCount_waf, Nat.add_zero]

lemma pollCount_over (value : Payload) : pollCount (overrideEvents value) = 0 := by
  simp only [overrideEvents, pollCount_append, pollCount_waf, Nat.add_zero]

lemma pollCount_conv (value : Payload) : pollCount (convenienceEvents value) = 0 := by
  simp only [convenienceEvents, pollCount_append, pollCount_waf, Nat.add_zero]

/-! ### Claim C1 -/

/-- **C1 counterexample.**  The claim quantifies over payloads containing
`calibrate: false`, but the source tests `value.calibrate != null`
(line 157), which is true for the boolean `false`.  With the payload
`{calibrate: false, installedOpenLimitLiftCm: 50}` the full learning
sequence runs: six open/close/stop commands and four `operationalStatus`
poll loops, contradicting "performs no open/close/stop commands and no
operationalStatus polling". -/
theorem calibrate_false_runs_learning :
    commandsOf (runCalibration ⟨[("installedOpenLimitLiftCm", 50)], some false, none⟩ 0 (fun _ => 0))
      = ["upOpen", "downClose", "stop", "upOpen", "downClose", "upOpen"] ∧
    commandsOf (runCalibration ⟨[("installedOpenLimitLiftCm", 50)], some false, none⟩ 0 (fun _ => 0))
      ≠ [] ∧
    pollCount (runCalibration ⟨[("installedOpenLimitLiftCm", 50)], some false, none⟩ 0 (fun _ => 0))
      = 4 := by
  refine ⟨by rfl, ?_, by rfl⟩
  intro h
  rw [(by rfl : commandsOf (runCalibration ⟨[("installedOpenLimitLiftCm", 50)], some false, none⟩ 0
    (fun _ => 0)) = ["upOpen", "downClose", "stop", "upOpen", "downClose", "upOpen"])] at h
  cases h

/-- **C1 (amended).**  The learning sequence is skipped exactly when the
`calibrate` key is absent (or `null`), not when it is the boolean `false`:
for every such payload the trace has no commands and no polling, and for
the payload `{installedOpenLimitLiftCm: 50}` (device already settled, i.e.
calibration bit of the initially read mode clear) the trace is exactly the
single attribute write `installedOpenLimitLiftCm = 50`. -/
theorem calibrate_absent_skips_learning (value : Payload) (m : ℕ) (d : ℕ → ℕ)
    (hcal : value.calibrate = none) :
    commandsOf (runCalibration value m d) = [] ∧
    pollCount (runCalibration value m d) = 0 ∧
    (value.attrs = [("installedOpenLimitLiftCm", 50)] → m &&& 2 = 0 →
      runCalibration value m d = [Event.write [("installedOpenLimitLiftCm", 50)]]) := by
  have hs : value.calibrate.isSome = false := by rw [hcal]; rfl
  have tr : runCalibration value m d =
      settleEvents m ++ baseConfigEvents value ++ [] ++ overrideEvents value
        ++ convenienceEvents value ++ [] := by
    simp [runCalibration, hs]
  refine ⟨?_, ?_, ?_⟩
  · rw [tr]
    simp only [commandsOf_append, commandsOf_settle, commandsOf_base, commandsOf_over,
      commandsOf_conv, commandsOf_nil, List.append_nil]
  · rw [tr]
    simp only [pollCount_append, pollCount_settle, pollCount_base, pollCount_over,
      pollCount_conv, pollCount_nil, Nat.add_zero]
  · intro ha hm
    obtain ⟨attrs, cal, sps⟩ := value
    simp only at ha hcal
    subst ha hcal
    simp only [runCalibration, settleEvents]
    rw [if_neg (fun h => h hm)]
    rfl

/-- Witness for `calibrate_absent_skips_learning` at the concrete payload
`{installedOpenLimitLiftCm: 50}` with initial mode 0. -/
theorem calibrate_absent_skips_learning_witness :
    commandsOf (runCalibration ⟨[("installedOpenLimitLiftCm", 50)], none, none⟩ 0 (fun _ => 0)) = [] ∧
    pollCount (runCalibration ⟨[("installedOpenLimitLiftCm", 50)], none, none⟩ 0 (fun _ => 0)) = 0 ∧
    runCalibration ⟨[("installedOpenLimitLiftCm", 50)], none, none⟩ 0 (fun _ => 0)
      = [Event.write [("installedOpenLimitLiftCm", 50)]] := by
  have h := calibrate_absent_skips_learning ⟨[("installedOpenLimitLiftCm", 50)], none, none⟩ 0
    (fun _ => 0) rfl
  exact ⟨h.1, h.2.1, h.2.2 rfl rfl⟩

/-! ### Claim C2 -/

/-- **C2 (code bug).**  Line 170 guards the mode adoption
`mode = value.windowCoveringMode` on the result of
`await writeAttrFromJson(...)`, but `writeAttrFromJson` has no `return`
statement, so the guard is always `undefined` (falsy) and the adoption is
dead code.  With payload `{calibrate: true, windowCoveringMode: 4}` and
initial mode 0 the `windowCoveringMode` writes are `[4, 2, 0]` — the
EnableCalibration write is `0 | 2 = 2`, not the claimed
`4 | 2 = 6`, and Finalize is `0 & ~2 = 0`, not `4`. -/
theorem windowCoveringMode_not_adopted :
    writeAttrFromJsonResult = false ∧
    wcModeWrites (runCalibration ⟨[("windowCoveringMode", 4)], some true, none⟩ 0 (fun _ => 0))
      = [4, 2, 0] ∧
    wcModeWrites (runCalibration ⟨[("windowCoveringMode", 4)], some true, none⟩ 0 (fun _ => 0))
      ≠ [4, 6, 4] := by
  refine ⟨rfl, by rfl, ?_⟩
  intro h
  rw [(by rfl : wcModeWrites (runCalibration ⟨[("windowCoveringMode", 4)], some true, none⟩ 0
    (fun _ => 0)) = [4, 2, 0])] at h
  simp only [List.cons.injEq] at h
  exact absurd h.2.1 (by norm_num)

/-! ### Claim C3 -/

/-- **C3 (code bug).**  Line 141 computes the JSON key for
`ubisys`-prefixed attributes as
`jsonAttr.substring(6, 1).toLowerCase + jsonAttr.substring(7)`:
`substring(6, 1)` swaps to `substring(1, 6)`, and `.toLowerCase` is never
called, so the function object is stringified into the key.  The effective
key is garbage, hence a value supplied under the attribute's JSON key —
whether the attribute name `ubisysTotalSteps` itself or the intended
de-prefixed `totalSteps` — is silently dropped: the trace is empty. -/
theorem ubisys_key_mangled_drops_overrides :
    effectiveJsonKey "ubisysTotalSteps" = jsToLowerCaseFunSrc ++ "otalSteps" ∧
    effectiveJsonKey "ubisysTotalSteps" ≠ "ubisysTotalSteps" ∧
    effectiveJsonKey "ubisysTotalSteps" ≠ "totalSteps" ∧
    runCalibration ⟨[("ubisysTotalSteps", 1000)], none, none⟩ 0 (fun _ => 0) = [] ∧
    runCalibration ⟨[("totalSteps", 1000)], none, none⟩ 0 (fun _ => 0) = [] := by
  exact ⟨by rfl, by decide, by decide, by rfl, by rfl⟩

/-! ### Claim C4 -/

lemma clearCalBit_and_two (m : ℕ) : clearCalBit m &&& 2 = 0 := by
  unfold clearCalBit
  rw [Nat.land_assoc]
  have h : (4294967293 : ℕ) &&& 2 = 0 := by decide
  rw [h]
  simp

lemma setCalBit_and_two (m : ℕ) : setCalBit m &&& 2 ≠ 0 := by
  unfold setCalBit
  have h : (m ||| 2) &&& 2 ^ 1 = ((m ||| 2).testBit 1).toNat * 2 ^ 1 := Nat.and_two_pow _ 1
  rw [Nat.testBit_lor] at h
  have h2 : Nat.testBit 2 1 = true := by decide
  rw [h2, Bool.or_true] at h
  simp at h
  omega

lemma calBitClearQ_clear (m : ℕ) : calBitClearQ ((clearCalBit m : ℕ) : ℚ) :=
  ⟨clearCalBit m, rfl, clearCalBit_and_two m⟩

lemma calBitSetQ_set (m : ℕ) : calBitSetQ ((setCalBit m : ℕ) : ℚ) :=
  ⟨setCalBit m, rfl, setCalBit_and_two m⟩

lemma not_calBitSetQ_of_clear {q : ℚ} (h : calBitClearQ q) : ¬ calBitSetQ q := by
  rintro ⟨n2, e2, h2⟩
  rcases h with ⟨n1, e1, h1⟩
  rw [e1] at e2
  have : n1 = n2 := by exact_mod_cast e2
  subst this
  exact h2 h1

lemma wcModeWrites_settle (m : ℕ) :
    wcModeWrites (settleEvents m) =
      if m &&& 2 ≠ 0 then [((clearCalBit m : ℕ) : ℚ)] else [] := by
  unfold settleEvents
  split <;> simp [wcModeWrites, lookupA]

lemma wcModeWrites_base (value : Payload) :
    wcModeWrites (baseConfigEvents value) =
      match lookupA value.attrs "windowCoveringMode" with
      | some v => [v]
      | none => [] := by
  unfold baseConfigEvents
  rw [wcModeWrites_append, wcModeWrites_append]
  rw [wcModeWrites_waf_ne _ _ _ _ (by decide), wcModeWrites_waf_ne _ _ _ _ (by decide)]
  unfold writeAttrFromJson
  rw [(by rfl : effectiveJsonKey "windowCoveringMode" = "windowCoveringMode")]
  cases h : lookupA value.attrs "windowCoveringMode" <;> simp [wcModeWrites, lookupA]

lemma wcModeWrites_replicate_poll (n : ℕ) :
    wcModeWrites (List.replicate n Event.pollRead) = [] := by
  induction n with
  | zero => rfl
  | succ k ih => rw [List.replicate_succ]; simp [wcModeWrites]

lemma wcModeWrites_learn (m : ℕ) (d : ℕ → ℕ) :
    wcModeWrites (learnEvents m d) = [((setCalBit m : ℕ) : ℚ)] := by
  unfold learnEvents waitUntilStopped
  repeat rw [wcModeWrites_append]
  repeat rw [wcModeWrites_replicate_poll]
  simp [wcModeWrites, lookupA, resetAttributes]

lemma wcModeWrites_over (value : Payload) : wcModeWrites (overrideEvents value) = [] := by
  unfold overrideEvents
  repeat rw [wcModeWrites_append]
  repeat rw [wcModeWrites_waf_ne _ _ _ _ (by decide)]
  rfl

lemma wcModeWrites_conv (value : Payload) : wcModeWrites (convenienceEvents value) = [] := by
  unfold convenienceEvents
  repeat rw [wcModeWrites_append]
  repeat rw [wcModeWrites_waf_ne _ _ _ _ (by decide)]
  rfl

lemma wcModeWrites_finalize (m : ℕ) :
    wcModeWrites (finalizeEvents m) = [((clearCalBit m : ℕ) : ℚ)] := by
  simp [finalizeEvents, wcModeWrites, lookupA]

/-- With calibration requested, the `windowCoveringMode` writes of a full
trace are: the optional settle-clear, the optional BaseConfig write of the
raw payload value, the EnableCalibration write `initialMode | 2`, and the
Finalize write `initialMode & ~2`. -/
lemma wcModeWrites_run (value : Payload) (m : ℕ) (d : ℕ → ℕ)
    (hc : value.calibrate.isSome = true) :
    wcModeWrites (runCalibration value m d) =
      ((if m &&& 2 ≠ 0 then [((clearCalBit m : ℕ) : ℚ)] else [])
        ++ (match lookupA value.attrs "windowCoveringMode" with
            | some v => [v]
            | none => []))
      ++ [((setCalBit m : ℕ) : ℚ), ((clearCalBit m : ℕ) : ℚ)] := by
  unfold runCalibration
  rw [hc]
  simp only [if_true]
  repeat rw [wcModeWrites_append]
  rw [wcModeWrites_settle, wcModeWrites_base, wcModeWrites_learn, wcModeWrites_over,
    wcModeWrites_conv, wcModeWrites_finalize]
  simp

lemma calPropList_pre (pre : List ℚ) (m : ℕ) (hpre : ∀ v ∈ pre, calBitClearQ v) :
    calModeWindowPropList (pre ++ [((setCalBit m : ℕ) : ℚ), ((clearCalBit m : ℕ) : ℚ)]) := by
  refine ⟨by simp, ?_, ?_⟩
  · intro v hv
    rw [(by simp : pre ++ [((setCalBit m : ℕ) : ℚ), ((clearCalBit m : ℕ) : ℚ)]
      = (pre ++ [((setCalBit m : ℕ) : ℚ)]) ++ [((clearCalBit m : ℕ) : ℚ)])] at hv
    rw [List.getLast?_concat] at hv
    cases hv
    exact calBitClearQ_clear m
  · intro i v hget hset
    have hlen : (pre ++ [((setCalBit m : ℕ) : ℚ), ((clearCalBit m : ℕ) : ℚ)]).length
        = pre.length + 2 := by simp
    rw [hlen]
    by_cases hi : i < pre.length
    · rw [List.getElem?_append_left hi] at hget
      have hv : v ∈ pre := List.getElem?_mem hget
      exact absurd hset (not_calBitSetQ_of_clear (hpre v hv))
    · push_neg at hi
      rw [List.getElem?_append_right hi] at hget
      rcases Nat.lt_or_ge (i - pre.length) 1 with hk | hk
      · interval_cases h : (i - pre.length)
        · simp at hget
          omega
      · rcases Nat.lt_or_ge (i - pre.length) 2 with hk2 | hk2
        · have : i - pre.length = 1 := by omega
          rw [this] at hget
          simp at hget
          subst hget
          exact absurd hset (not_calBitSetQ_of_clear (calBitClearQ_clear m))
        · have : ([((setCalBit m : ℕ) : ℚ), ((clearCalBit m : ℕ) : ℚ)].length : ℕ)
              ≤ i - pre.length := by simpa using hk2
          rw [List.getElem?_eq_none this] at hget
          cases hget

/-- **C4 counterexample.**  The claim asserts the calibration bit is set
only between the EnableCalibration and Finalize writes, for *every*
payload.  But the BaseConfig phase writes the caller-supplied
`windowCoveringMode` value verbatim: with payload
`{calibrate: true, windowCoveringMode: 2}` and initial mode 0 the write
sequence is `[2, 2, 0]`, whose first write (before EnableCalibration)
already has the bit set. -/
theorem calibration_bit_outside_window_counterexample :
    ¬ calModeWindowProp
      (runCalibration ⟨[("windowCoveringMode", 2)], some true, none⟩ 0 (fun _ => 0)) := by
  unfold calModeWindowProp
  rw [(by rfl : wcModeWrites (runCalibration ⟨[("windowCoveringMode", 2)], some true, none⟩ 0
    (fun _ => 0)) = [2, 2, 0])]
  rintro ⟨-, -, hidx⟩
  have h2 : calBitSetQ (2 : ℚ) := ⟨2, by norm_num, by decide⟩
  have := hidx 0 2 (by rfl) h2
  simp at this

/-- **C4 (amended).**  For every calibration request with the `calibrate`
key set whose supplied `windowCoveringMode` value (if any) has the
calibration bit clear, the last `windowCoveringMode` write of the trace
has the calibration bit (0x02) cleared — regardless of which optional
attributes were supplied — and a write with the bit set occurs only at the
EnableCalibration position, immediately before the Finalize write. -/
theorem calibration_bit_window (value : Payload) (m : ℕ) (d : ℕ → ℕ)
    (hc : value.calibrate.isSome = true)
    (hv : ∀ v, lookupA value.attrs "windowCoveringMode" = some v → calBitClearQ v) :
    calModeWindowProp (runCalibration value m d) := by
  unfold calModeWindowProp
  rw [wcModeWrites_run value m d hc]
  apply calPropList_pre
  intro v hvm
  rcases List.mem_append.mp hvm with h | h
  · revert h
    split
    · intro h
      rw [List.mem_singleton] at h
      subst h
      exact calBitClearQ_clear m
    · intro h
      cases h
  · revert h
    cases hl : lookupA value.attrs "windowCoveringMode" with
    | none => intro h; cases h
    | some w =>
      intro h
      rw [List.mem_singleton] at h
      subst h
      exact hv v hl

/-- Witness for `calibration_bit_window` at the payload
`{calibrate: true}` with initial mode 0. -/
theorem calibration_bit_window_witness :
    calModeWindowProp (runCalibration ⟨[], some true, none⟩ 0 (fun _ => 0)) :=
  calibration_bit_window ⟨[], some true, none⟩ 0 (fun _ => 0) rfl
    (fun v h => by simp [lookupA] at h)

/-! ### Claim C9 -/

lemma lws_waf_ne (value : Payload) (a j target : String) (c : Option (ℚ → ℚ)) (acc : Option ℚ)
    (h : a ≠ target) :
    List.foldl (lastWriteStep target) acc (writeAttrFromJson value a j c) = acc := by
  unfold writeAttrFromJson
  cases lookupA value.attrs (effectiveJsonKey j) with
  | none => rfl
  | some v => simp [lastWriteStep, lookupA, List.find?, beq_eq_false_iff_ne.mpr h]

lemma lws_waf_set (value : Payload) (a j : String) (f : ℚ → ℚ) (acc : Option ℚ) (s : ℚ)
    (hs : lookupA value.attrs (effectiveJsonKey j) = some s) :
    List.foldl (lastWriteStep a) acc (writeAttrFromJson value a j (some f)) = some (f s) := by
  unfold writeAttrFromJson
  rw [hs]
  simp [lastWriteStep, lookupA]

lemma lws_finalize (m : ℕ) (target : String) (acc : Option ℚ)
    (h : target ≠ "windowCoveringMode") :
    List.foldl (lastWriteStep target) acc (finalizeEvents m) = acc := by
  simp [finalizeEvents, lastWriteStep, lookupA, List.find?,
    beq_eq_false_iff_ne.mpr (fun hh => h hh.symm)]

/-- **C9 (confirmed).**  The convenience conversions: a supplied
`open_to_closed_s` makes the last write to `ubisysTotalSteps` equal
`s * stepsPerSecond`; `closed_to_open_s` likewise for `ubisysTotalSteps2`;
`lift_to_tilt_transition_ms` writes `ms * stepsPerSecond / 1000` to both
lift-to-tilt transition-step attributes; and the concrete instance
`steps_per_second: 50`, `open_to_closed_s: 10` yields exactly 500.
(The convenience writes follow the raw overrides, so they are the last
writes to their attributes.) -/
theorem convenience_conversions (value : Payload) (m : ℕ) (d : ℕ → ℕ) :
    (∀ s, lookupA value.attrs "open_to_closed_s" = some s →
      lastWriteOf "ubisysTotalSteps" (runCalibration value m d)
        = some (s * stepsPerSecondOf value)) ∧
    (∀ s, lookupA value.attrs "closed_to_open_s" = some s →
      lastWriteOf "ubisysTotalSteps2" (runCalibration value m d)
        = some (s * stepsPerSecondOf value)) ∧
    (∀ s, lookupA value.attrs "lift_to_tilt_transition_ms" = some s →
      lastWriteOf "ubisysLiftToTiltTransitionSteps" (runCalibration value m d)
        = some (s * stepsPerSecondOf value / 1000) ∧
      lastWriteOf "ubisysLiftToTiltTransitionSteps2" (runCalibration value m d)
        = some (s * stepsPerSecondOf value / 1000)) ∧
    (value.steps_per_second = some 50 → lookupA value.attrs "open_to_closed_s" = some 10 →
      lastWriteOf "ubisysTotalSteps" (runCalibration value m d) = some 500) := by
  have key1 : effectiveJsonKey "open_to_closed_s" = "open_to_closed_s" := by rfl
  have key2 : effectiveJsonKey "closed_to_open_s" = "closed_to_open_s" := by rfl
  have key3 : effectiveJsonKey "lift_to_tilt_transition_ms" = "lift_to_tilt_transition_ms" := by rfl
  have h1 : ∀ s, lookupA value.attrs "open_to_closed_s" = some s →
      lastWriteOf "ubisysTotalSteps" (runCalibration value m d)
        = some (s * stepsPerSecondOf value) := by
    intro s hs
    unfold lastWriteOf runCalibration convenienceEvents
    simp only [List.foldl_append]
    rw [lws_waf_set _ _ _ _ _ _ (key1 ▸ hs)]
    rw [lws_waf_ne _ _ _ _ _ _ (by decide)]
    rw [lws_waf_ne _ _ _ _ _ _ (by decide)]
    rw [lws_waf_ne _ _ _ _ _ _ (by decide)]
    split
    · rw [lws_finalize _ _ _ (by decide)]
    · rfl
  refine ⟨h1, ?_, ?_, ?_⟩
  · intro s hs
    unfold lastWriteOf runCalibration convenienceEvents
    simp only [List.foldl_append]
    rw [lws_waf_set _ _ _ _ _ _ (key2 ▸ hs)]
    rw [lws_waf_ne _ _ _ _ _ _ (by decide)]
    rw [lws_waf_ne _ _ _ _ _ _ (by decide)]
    split
    · rw [lws_finalize _ _ _ (by decide)]
    · rfl
  · intro s hs
    constructor
    · unfold lastWriteOf runCalibration convenienceEvents
      simp only [List.foldl_append]
      rw [lws_waf_set _ _ _ _ _ _ (key3 ▸ hs)]
      rw [lws_waf_ne _ _ _ _ _ _ (by decide)]
      split
      · rw [lws_finalize _ _ _ (by decide)]
      · rfl
    · unfold lastWriteOf runCalibration convenienceEvents
      simp only [List.foldl_append]
      rw [lws_waf_set _ _ _ _ _ _ (key3 ▸ hs)]
      split
      · rw [lws_finalize _ _ _ (by decide)]
      · rfl
  · intro hsps hs
    rw [h1 10 hs]
    unfold stepsPerSecondOf
    rw [hsps]
    norm_num

/-- Witness for `convenience_conversions`: the spec's end-to-end scenario
`{open_to_closed_s: 10, steps_per_second: 50}` writes 500. -/
theorem convenience_conversions_witness :
    lastWriteOf "ubisysTotalSteps"
      (runCalibration ⟨[("open_to_closed_s", 10)], none, some 50⟩ 0 (fun _ => 0)) = some 500 :=
  (convenience_conversions ⟨[("open_to_closed_s", 10)], none, some 50⟩ 0 (fun _ => 0)).2.2.2
    rfl rfl

/-! ### Claim C5 -/

/-- **C5 counterexample.**  The claim asserts an unrecognized model is a
fatal configuration error raised before emitting tuples.  But line 522 is
a plain JS object lookup yielding `undefined`; no check follows.
Compiling a `toggle` template for the unknown model `"V1"` succeeds and
emits a tuple whose endpoint cell is `undefined`. -/
theorem unknown_model_no_error_counterexample :
    compile [{type := "toggle"}] "V1"
      = Except.ok [[some 0, some 13, none, some 6, some 0, some 2]] ∧
    ∀ e, compile [{type := "toggle"}] "V1" ≠ Except.error e := by
  refine ⟨by rfl, ?_⟩
  intro e h
  rw [(by rfl : compile [{type := "toggle"}] "V1"
    = Except.ok [[some 0, some 13, none, some 6, some 0, some 2]])] at h
  cases h

/-- **C5 (amended).**  For a model outside the
`{S1, S2, D1, J1, C4}` table the compiler raises no error at all: the
starting-endpoint lookup yields `undefined` and compilation proceeds,
emitting tuples with an `undefined` endpoint reference. -/
theorem unknown_model_undefined_endpoint (model : String)
    (h1 : model ≠ "S1") (h2 : model ≠ "S2") (h3 : model ≠ "D1")
    (h4 : model ≠ "J1") (h5 : model ≠ "C4") :
    modelStartingEndpoint model = none ∧
    compile [{type := "toggle"}] model
      = Except.ok [[some 0, some 13, none, some 6, some 0, some 2]] := by
  have hep : modelStartingEndpoint model = none := by
    unfold modelStartingEndpoint
    rw [if_neg h1, if_neg h2, if_neg h3, if_neg h4, if_neg h5]
  refine ⟨hep, ?_⟩
  unfold compile runTemplates
  rw [hep]
  rfl

/-- Witness for `unknown_model_undefined_endpoint` at model `"V1"`. -/
theorem unknown_model_undefined_endpoint_witness :
    modelStartingEndpoint "V1" = none ∧
    compile [{type := "toggle"}] "V1"
      = Except.ok [[some 0, some 13, none, some 6, some 0, some 2]] :=
  unknown_model_undefined_endpoint "V1" (by decide) (by decide) (by decide) (by decide)
    (by decide)

/-! ### Claim C6 -/

/-- **C6 (confirmed).**  After processing any template the cursor advance
of lines 581-582 is unconditional: the next default input is one greater
than the maximum input index the template used, and the next default
endpoint is the used endpoint plus one.  In particular a double-input
family without explicit `inputs` at cursor input 2 uses exactly inputs 2
and 3. -/
theorem cursor_advance_unconditional (model : String) (st : CState) (t : Template)
    (out : StepOut) (hout : step model st t = .ok out) :
    (out.next.input = inputUseMax out.usedInput + 1
      ∧ out.next.endpoint = jadd out.usedEndpoint 1)
    ∧ (t.type = "dimmer_double" → t.input = none → t.inputs = none → st.input = 2 →
        out.usedInput = InputUse.pair 2 3
        ∧ (∀ r ∈ out.acts, r.head? = some (some 2) ∨ r.head? = some (some 3))
        ∧ (∃ r ∈ out.acts, r.head? = some (some 2))
        ∧ (∃ r ∈ out.acts, r.head? = some (some 3))) := by
  constructor
  · unfold step at hout
    cases hfam : templateTypes t.type with
    | none => rw [hfam] at hout; cases hout
    | some fam =>
      rw [hfam] at hout
      simp only at hout
      split at hout
      · split at hout
        · cases hout
          simp [inputUseMax]
        · split at hout
          · cases hout
          · split at hout
            · cases hout
              simp [inputUseMax]
            · cases hout
              simp [inputUseMax]
      · cases hout
        simp [inputUseMax]
  · intro hty hi his hst
    unfold step at hout
    rw [hty] at hout
    simp only [templateTypes] at hout
    norm_num at hout
    rw [hi, his, hst] at hout
    simp only [Option.getD] at hout
    cases hout
    refine ⟨rfl, ?_, ?_, ?_⟩
    · intro r hr
      simp only [List.mem_cons, List.not_mem_nil, or_false] at hr
      rcases hr with rfl | rfl | rfl | rfl | rfl | rfl <;> simp
    · exact ⟨[some 2, some 7, c4CoverFixup model false (resolveEndpoint st t), some 6, some 0,
        some 1], by simp, by simp⟩
    · exact ⟨[some 3, some 7, c4CoverFixup model false (resolveEndpoint st t), some 6, some 0,
        some 0], by simp, by simp⟩

/-- Witness for `cursor_advance_unconditional`: a `dimmer_double` template
at cursor input 2, endpoint 2 on the S1 model. -/
theorem cursor_advance_unconditional_witness :
    ∃ out, step "S1" ⟨2, some 2, 0⟩ {type := "dimmer_double"} = Except.ok out ∧
      out.next.input = inputUseMax out.usedInput + 1 ∧
      out.next.endpoint = jadd out.usedEndpoint 1 ∧
      out.usedInput = InputUse.pair 2 3 ∧
      (∀ r ∈ out.acts, r.head? = some (some 2) ∨ r.head? = some (some 3)) := by
  have h : step "S1" ⟨2, some 2, 0⟩ {type := "dimmer_double"} =
      Except.ok ⟨[[some 2, some 7, some 2, some 6, some 0, some 1],
        [some 2, some 6, some 2, some 8, some 0, some 5, some 0, some 50],
        [some 2, some 11, some 2, some 8, some 0, some 3],
        [some 3, some 7, some 2, some 6, some 0, some 0],
        [some 3, some 6, some 2, some 8, some 0, some 5, some 1, some 50],
        [some 3, some 11, some 2, some 8, some 0, some 3]],
        InputUse.pair 2 3, some 2, ⟨4, some 3, 0⟩⟩ := by rfl
  have hc := cursor_advance_unconditional "S1" ⟨2, some 2, 0⟩ {type := "dimmer_double"} _ h
  have hc2 := hc.2 rfl rfl rfl rfl
  exact ⟨_, h, hc.1.1, hc.1.2, hc2.1, hc2.2.1⟩

/-! ### Claim C7 -/

/-- **C7 (confirmed).**  `scene`/`scene_switch` templates: a missing
`scene_id` is a fatal `missingSceneId` error (raised by the pure compile
step, hence before any transport write for that template); `scene_id`
alone yields exactly one instruction tuple; `scene_id` plus `scene_id_2`
yields exactly two. -/
theorem scene_requires_scene_id (model : String) (st : CState) (t : Template)
    (hty : t.type = "scene" ∨ t.type = "scene_switch") :
    (t.scene_id = none → step model st t = .error (.missingSceneId t.type))
    ∧ (∀ sid, t.scene_id = some sid → t.scene_id_2 = none →
        ∃ out, step model st t = .ok out ∧ out.acts.length = 1)
    ∧ (∀ sid sid2, t.scene_id = some sid → t.scene_id_2 = some sid2 →
        ∃ out, step model st t = .ok out ∧ out.acts.length = 2) := by
  rcases hty with hty | hty <;>
  · refine ⟨?_, ?_, ?_⟩
    · intro hsid
      unfold step
      rw [hty]
      simp only [templateTypes]
      norm_num
      rw [hsid]
      simp [hty]
    · intro sid hsid hsid2
      unfold step
      rw [hty]
      simp only [templateTypes]
      norm_num
      rw [hsid, hsid2]
      exact ⟨_, rfl, rfl⟩
    · intro sid sid2 hsid hsid2
      unfold step
      rw [hty]
      simp only [templateTypes]
      norm_num
      rw [hsid, hsid2]
      exact ⟨_, rfl, rfl⟩

/-- Witness for `scene_requires_scene_id`: the three cases at concrete
`scene` templates. -/
theorem scene_requires_scene_id_witness :
    step "S1" ⟨0, some 2, 0⟩ {type := "scene"} = Except.error (.missingSceneId "scene") ∧
    (∃ out, step "S1" ⟨0, some 2, 0⟩ {type := "scene", scene_id := some 3} = Except.ok out ∧
      out.acts.length = 1) ∧
    (∃ out, step "S1" ⟨0, some 2, 0⟩
        {type := "scene", scene_id := some 3, scene_id_2 := some 4} = Except.ok out ∧
      out.acts.length = 2) :=
  ⟨(scene_requires_scene_id "S1" ⟨0, some 2, 0⟩ {type := "scene"} (Or.inl rfl)).1 rfl,
   (scene_requires_scene_id "S1" ⟨0, some 2, 0⟩ {type := "scene", scene_id := some 3}
     (Or.inl rfl)).2.1 3 rfl rfl,
   (scene_requires_scene_id "S1" ⟨0, some 2, 0⟩
     {type := "scene", scene_id := some 3, scene_id_2 := some 4} (Or.inl rfl)).2.2 3 4 rfl rfl⟩

/-! ### Claim C8 -/

lemma step_usedEndpoint (model : String) (st : CState) (t : Template) (out : StepOut)
    (hout : step model st t = .ok out) :
    out.usedEndpoint = c4CoverFixup model (famCover t.type) (resolveEndpoint st t) := by
  unfold step at hout
  cases hfam : templateTypes t.type with
  | none => rw [hfam] at hout; cases hout
  | some fam =>
    rw [hfam] at hout
    simp only at hout
    have hfc : famCover t.type = fam.cover := by unfold famCover; rw [hfam]
    rw [hfc]
    split at hout
    · split at hout
      · cases hout; rfl
      · split at hout
        · cases hout
        · split at hout
          · cases hout; rfl
          · cases hout; rfl
    · cases hout; rfl

/-- **C8 (confirmed).**  The C4 cover-endpoint fixup of lines 544-547: the
endpoint actually used is `c4CoverFixup` of the resolved endpoint; for a
cover-capable family on model C4 a resolved endpoint below 5 is shifted up
by 4 and one at 5 or above is used unchanged; for non-cover families or
other models the resolved endpoint is used unchanged. -/
theorem c4_cover_endpoint_fixup (model : String) (st : CState) (t : Template)
    (out : StepOut) (hout : step model st t = .ok out) :
    out.usedEndpoint = c4CoverFixup model (famCover t.type) (resolveEndpoint st t)
    ∧ (∀ e : ℤ, resolveEndpoint st t = some e → famCover t.type = true → model = "C4" →
        (e < 5 → out.usedEndpoint = some (e + 4))
        ∧ (¬ e < 5 → out.usedEndpoint = some e))
    ∧ ((famCover t.type = false ∨ model ≠ "C4") →
        out.usedEndpoint = resolveEndpoint st t) := by
  have h := step_usedEndpoint model st t out hout
  refine ⟨h, ?_, ?_⟩
  · intro e hre hcov hm
    rw [h, hre, hcov, hm]
    constructor
    · intro hlt
      unfold c4CoverFixup jlt jadd
      simp [hlt]
    · intro hge
      unfold c4CoverFixup jlt
      simp [hge]
  · intro hor
    rw [h]
    rcases hor with hcov | hm
    · rw [hcov]
      unfold c4CoverFixup
      simp
    · unfold c4CoverFixup
      rw [beq_eq_false_iff_ne.mpr hm]
      simp

/-- Witness for `c4_cover_endpoint_fixup`: a `cover_up` template on C4 at
resolved endpoint 1 is emitted at endpoint 5. -/
theorem c4_cover_endpoint_fixup_witness :
    ∃ out, step "C4" ⟨0, some 1, 0⟩ {type := "cover_up"} = Except.ok out ∧
      out.usedEndpoint = some 5 ∧ out.usedEndpoint = some ((1 : ℤ) + 4) := by
  have h : step "C4" ⟨0, some 1, 0⟩ {type := "cover_up"} =
      Except.ok ⟨[[some 0, some 13, some 5, some 2, some 1, some 0]],
        InputUse.single 0, some 5, ⟨1, some 6, 0⟩⟩ := by rfl
  have hc := (c4_cover_endpoint_fixup "C4" ⟨0, some 1, 0⟩ {type := "cover_up"} _ h).2.1 1
    rfl rfl rfl
  exact ⟨_, h, by rfl, hc.1 (by norm_num)⟩

/-! ### Claim C10 -/

/-- A template that cannot touch the group register leaves it unchanged. -/
lemma step_groupId_preserved (model : String) (st : CState) (t : Template) (out : StepOut)
    (htg : touchesGroup t = false) (hout : step model st t = .ok out) :
    out.next.groupId = st.groupId := by
  unfold step at hout
  cases hfam : templateTypes t.type with
  | none => rw [hfam] at hout; cases hout
  | some fam =>
    rw [hfam] at hout
    simp only at hout
    unfold touchesGroup at htg
    have hfs : famScene t.type = fam.scene := by unfold famScene; rw [hfam]
    rw [hfs] at htg
    split at hout
    · split at hout
      · cases hout; rfl
      · rename_i hnd hsc
        simp only [Bool.not_eq_true'] at hsc
        rw [Bool.not_eq_false] at hsc
        rw [hsc, Bool.true_and] at htg
        simp only [Bool.or_eq_false_iff, Bool.and_eq_false_iff] at htg
        obtain ⟨hg1, hg2⟩ := htg
        have hg1n : t.group_id = none := by
          cases hh : t.group_id
          · rfl
          · rw [hh] at hg1; cases hg1
        split at hout
        · cases hout
        · split at hout
          · cases hout
            simp [hg1n]
          · cases hout
            rename_i hsid hsid2
            rcases hg2 with hg2 | hg2
            · have : t.scene_id_2 = none := by
                cases hh : t.scene_id_2
                · rfl
                · rw [hh] at hg2; cases hg2
              rw [this] at hsid2
              cases hsid2
            · have hg2n : t.group_id_2 = none := by
                cases hh : t.group_id_2
                · rfl
                · rw [hh] at hg2; cases hg2
              simp [hg2n, hg1n]
    · cases hout; rfl

/-- The group register survives any run of templates none of which can
touch it. -/
lemma runTemplates_groupId_preserved (model : String) (mid : List Template) :
    ∀ (st st' : CState) (acc : List ActionRow),
      (∀ t ∈ mid, touchesGroup t = false) →
      runTemplates model st mid = .ok (st', acc) → st'.groupId = st.groupId := by
  induction mid with
  | nil =>
    intro st st' acc _ h
    unfold runTemplates at h
    cases h
    rfl
  | cons t ts ih =>
    intro st st' acc hall h
    unfold runTemplates at h
    cases hstep : step model st t with
    | error e => rw [hstep] at h; cases h
    | ok out =>
      rw [hstep] at h
      simp only at h
      cases hrun : runTemplates model out.next ts with
      | error e => rw [hrun] at h; cases h
      | ok p =>
        rw [hrun] at h
        obtain ⟨st2, acc2⟩ := p
        simp only at h
        cases h
        have h1 := step_groupId_preserved model st t out (hall t (by simp)) hstep
        have h2 := ih out.next _ _ (fun u hu => hall u (by simp [hu])) hrun
        rw [h2, h1]

/-- A scene template with a secondary scene and `group_id_2 = g` leaves
the group register equal to `g`. -/
lemma step_scene_sets_group (model : String) (st : CState) (t : Template) (out : StepOut)
    (g : ℕ) (hty : t.type = "scene" ∨ t.type = "scene_switch")
    (hs2 : t.scene_id_2.isSome = true) (hg2 : t.group_id_2 = some g)
    (hout : step model st t = .ok out) : out.next.groupId = g := by
  rcases hty with hty | hty <;>
  · unfold step at hout
    rw [hty] at hout
    simp only [templateTypes] at hout
    norm_num at hout
    cases hsid : t.scene_id with
    | none => rw [hsid] at hout; simp only at hout; cases hout
    | some sid =>
      rw [hsid] at hout
      cases hs2' : t.scene_id_2 with
      | none => rw [hs2'] at hs2; cases hs2
      | some s2 =>
        rw [hs2'] at hout
        simp only at hout
        cases hout
        simp [hg2]

/-- A scene template supplying no `group_id` encodes the current group
register in its primary tuple. -/
lemma step_scene_uses_group (model : String) (st : CState) (t : Template) (out : StepOut)
    (sid : ℕ) (hty : t.type = "scene" ∨ t.type = "scene_switch")
    (hg : t.group_id = none) (hsid : t.scene_id = some sid)
    (hout : step model st t = .ok out) :
    ∃ mask i ep rest, out.acts = sceneRow mask i ep st.groupId sid :: rest := by
  rcases hty with hty | hty
  · unfold step at hout
    rw [hty] at hout
    simp only [templateTypes] at hout
    norm_num at hout
    rw [hsid] at hout
    cases hs2 : t.scene_id_2 with
    | none =>
      rw [hs2] at hout
      simp only at hout
      cases hout
      exact ⟨7, t.input.getD st.input, c4CoverFixup model false (resolveEndpoint st t), [],
        by simp [hg]⟩
    | some s2 =>
      rw [hs2] at hout
      simp only at hout
      cases hout
      exact ⟨7, t.input.getD st.input, c4CoverFixup model false (resolveEndpoint st t),
        [sceneRow 6 (t.input.getD st.input) (c4CoverFixup model false (resolveEndpoint st t))
          (t.group_id_2.getD st.groupId) s2], by simp [hg]⟩
  · unfold step at hout
    rw [hty] at hout
    simp only [templateTypes] at hout
    norm_num at hout
    rw [hsid] at hout
    cases hs2 : t.scene_id_2 with
    | none =>
      rw [hs2] at hout
      simp only at hout
      cases hout
      exact ⟨13, t.input.getD st.input, c4CoverFixup model false (resolveEndpoint st t), [],
        by simp [hg]⟩
    | some s2 =>
      rw [hs2] at hout
      simp only at hout
      cases hout
      exact ⟨13, t.input.getD st.input, c4CoverFixup model false (resolveEndpoint st t),
        [sceneRow 3 (t.input.getD st.input) (c4CoverFixup model false (resolveEndpoint st t))
          (t.group_id_2.getD st.groupId) s2], by simp [hg]⟩

/-- **C10 (confirmed).**  The compiler keeps a single mutable group-id
register shared by primary and secondary scene expansions: after a scene
template whose `group_id_2` is `g`, any run of templates that cannot touch
the register preserves `g`, and a later scene template supplying no
`group_id` encodes `g` (low byte, high byte — see `sceneRow`) in its
primary tuple. -/
theorem scene_group_register_shared (model : String) (st1 : CState) (t1 : Template)
    (out1 : StepOut) (mid : List Template) (stMid : CState) (acc : List ActionRow)
    (t2 : Template) (out2 : StepOut) (g sid : ℕ)
    (hout1 : step model st1 t1 = .ok out1)
    (hty1 : t1.type = "scene" ∨ t1.type = "scene_switch")
    (hs2 : t1.scene_id_2.isSome = true) (hg2 : t1.group_id_2 = some g)
    (hrun : runTemplates model out1.next mid = .ok (stMid, acc))
    (hall : ∀ t ∈ mid, touchesGroup t = false)
    (hty2 : t2.type = "scene" ∨ t2.type = "scene_switch")
    (hgnone : t2.group_id = none) (hsid2 : t2.scene_id = some sid)
    (hout2 : step model stMid t2 = .ok out2) :
    out1.next.groupId = g ∧ stMid.groupId = g ∧
    ∃ mask i ep rest, out2.acts = sceneRow mask i ep g sid :: rest := by
  have h1 := step_scene_sets_group model st1 t1 out1 g hty1 hs2 hg2 hout1
  have h2 : stMid.groupId = g := by
    rw [runTemplates_groupId_preserved model mid out1.next stMid acc hall hrun, h1]
  have h3 := step_scene_uses_group model stMid t2 out2 sid hty2 hgnone hsid2 hout2
  rw [h2] at h3
  exact ⟨h1, h2, h3⟩

/-- Witness for `scene_group_register_shared`: a scene with
`group_id_2 = 300`, an intervening `toggle`, then a scene with no
`group_id`, which encodes group 300 (low byte 44, high byte 1). -/
theorem scene_group_register_shared_witness :
    ∃ out1 stMid acc out2,
      step "S1" ⟨0, some 2, 0⟩
        {type := "scene", scene_id := some 1, scene_id_2 := some 2, group_id_2 := some 300}
        = Except.ok out1 ∧
      runTemplates "S1" out1.next [{type := "toggle"}] = Except.ok (stMid, acc) ∧
      step "S1" stMid {type := "scene", scene_id := some 7} = Except.ok out2 ∧
      out1.next.groupId = 300 ∧ stMid.groupId = 300 ∧
      ∃ mask i ep rest, out2.acts = sceneRow mask i ep 300 7 :: rest := by
  have hout1 : step "S1" ⟨0, some 2, 0⟩
      {type := "scene", scene_id := some 1, scene_id_2 := some 2, group_id_2 := some 300}
      = Except.ok ⟨[sceneRow 7 0 (some 2) 0 1, sceneRow 6 0 (some 2) 300 2],
        InputUse.single 0, some 2, ⟨1, some 3, 300⟩⟩ := by rfl
  have hrun : runTemplates "S1" (⟨1, some 3, 300⟩ : CState) [{type := "toggle"}]
      = Except.ok (⟨2, some 4, 300⟩, [[some 1, some 13, some 3, some 6, some 0, some 2]]) := by
    rfl
  have hout2 : step "S1" (⟨2, some 4, 300⟩ : CState) {type := "scene", scene_id := some 7}
      = Except.ok ⟨[sceneRow 7 2 (some 4) 300 7], InputUse.single 2, some 4,
        ⟨3, some 5, 300⟩⟩ := by rfl
  have h := scene_group_register_shared "S1" ⟨0, some 2, 0⟩ _ _ [{type := "toggle"}] _ _ _ _
    300 7 hout1 (Or.inl rfl) rfl rfl hrun (by intro u hu; simp at hu; subst hu; rfl)
    (Or.inl rfl) rfl rfl hout2
  exact ⟨_, _, _, _, hout1, hrun, hout2, h⟩

end Ubisys
